import Mathlib

/-!
Verification development for the GreenGalaxyMVP multiplayer core.

The embedding covers:
* JavaScript number semantics (finite values as exact rationals, NaN, signed
  infinities) as far as the verified code paths exercise them: comparison,
  min/max (`Math.min`/`Math.max`), addition/subtraction, `Number.isFinite`;
* the client collision index (`isBlocked` and the collider-box build in
  `loadEnvironment`);
* the authoritative room server (`MyRoom`): the `move` and `chat` message
  handlers, `onJoin`, `onLeave` with the 5-second reconnection window, and the
  replicated `MyRoomState` / `PlayerState` schema;
* the per-rig animation state machine (`setBaseAnim`, `playWave` and its
  clip-completion handler).

Finite JS numbers are modelled as exact rationals: none of the verified
properties hinges on binary64 rounding, only on the exact constants and on the
NaN/infinity propagation rules, which are embedded faithfully.
-/

namespace GreenGalaxy

/-- A JavaScript number: NaN, a signed infinity (`inf true` is positive
infinity, `inf false` is negative infinity), or a finite value modelled as an
exact rational. -/
inductive JSNum where
  | nan : JSNum
  | inf : Bool → JSNum
  | fin : ℚ → JSNum
deriving DecidableEq

/-- JavaScript comparison `a <= b`: false whenever either side is NaN. -/
def jsLe : JSNum → JSNum → Bool
  | .nan, _ => false
  | _, .nan => false
  | .inf b, .inf c => !b || c
  | .inf b, .fin _ => !b
  | .fin _, .inf c => c
  | .fin a, .fin b => decide (a ≤ b)

/-- `Math.min`: NaN if either argument is NaN, otherwise the smaller value. -/
def jsMin : JSNum → JSNum → JSNum
  | .nan, _ => .nan
  | .inf _, .nan => .nan
  | .fin _, .nan => .nan
  | .inf b, .inf c => if jsLe (.inf b) (.inf c) then .inf b else .inf c
  | .inf b, .fin x => if jsLe (.inf b) (.fin x) then .inf b else .fin x
  | .fin a, .inf c => if jsLe (.fin a) (.inf c) then .fin a else .inf c
  | .fin a, .fin x => if jsLe (.fin a) (.fin x) then .fin a else .fin x

/-- `Math.max`: NaN if either argument is NaN, otherwise the larger value. -/
def jsMax : JSNum → JSNum → JSNum
  | .nan, _ => .nan
  | .inf _, .nan => .nan
  | .fin _, .nan => .nan
  | .inf b, .inf c => if jsLe (.inf b) (.inf c) then .inf c else .inf b
  | .inf b, .fin x => if jsLe (.inf b) (.fin x) then .fin x else .inf b
  | .fin a, .inf c => if jsLe (.fin a) (.inf c) then .inf c else .fin a
  | .fin a, .fin x => if jsLe (.fin a) (.fin x) then .fin x else .fin a

/-- JavaScript unary negation on numbers. -/
def jsNeg : JSNum → JSNum
  | .nan => .nan
  | .inf b => .inf !b
  | .fin a => .fin (-a)

/-- JavaScript addition: NaN propagates, opposite infinities give NaN. -/
def jsAdd : JSNum → JSNum → JSNum
  | .nan, _ => .nan
  | .inf _, .nan => .nan
  | .fin _, .nan => .nan
  | .inf b, .inf c => if b = c then .inf b else .nan
  | .inf b, .fin _ => .inf b
  | .fin _, .inf c => .inf c
  | .fin a, .fin x => .fin (a + x)

/-- JavaScript subtraction `a - b`. -/
def jsSub (a b : JSNum) : JSNum := jsAdd a (jsNeg b)

/-- `Number.isFinite`. -/
def jsIsFinite : JSNum → Bool
  | .fin _ => true
  | _ => false

/-! ## Collision index (client, `isBlocked` and the collider-box build) -/

/-- A three.js `Vector3` holding JS numbers. -/
structure JSVec3 where
  x : JSNum
  y : JSNum
  z : JSNum
deriving DecidableEq

/-- A three.js `Box3`: axis-aligned box given by its min and max corners. -/
structure JSBox where
  min : JSVec3
  max : JSVec3
deriving DecidableEq

/-- `Box3.containsPoint`: componentwise `min <= p` and `p <= max` with JS
comparison semantics (any NaN makes the comparison false). -/
def containsPoint (b : JSBox) (p : JSVec3) : Bool :=
  jsLe b.min.x p.x && jsLe p.x b.max.x &&
  jsLe b.min.y p.y && jsLe p.y b.max.y &&
  jsLe b.min.z p.z && jsLe p.z b.max.z

/-- `Box3.expandByScalar s`: min moves down by `s`, max moves up by `s` on
every axis. -/
def expandByScalar (b : JSBox) (s : JSNum) : JSBox :=
  { min := { x := jsSub b.min.x s, y := jsSub b.min.y s, z := jsSub b.min.z s },
    max := { x := jsAdd b.max.x s, y := jsAdd b.max.y s, z := jsAdd b.max.z s } }

/-- The client constant `PLAYER_GROUND_Y = 0.5`. -/
def PLAYER_GROUND_Y : ℚ := 1/2

/-- The fixed entity radius `0.45` used by `isBlocked`. -/
def radius : JSNum := .fin (9/20)

/-- The fixed-height probe point derived from a queried position: the probe
keeps x and z but replaces y by `PLAYER_GROUND_Y + 1.0`, independent of the
queried position's own y. -/
def probeOf (nextPos : JSVec3) : JSVec3 :=
  { x := nextPos.x, y := .fin (PLAYER_GROUND_Y + 1), z := nextPos.z }

/-- `isBlocked(nextPos)`: expands each collider box by the entity radius and
returns true on the first box whose expansion contains the fixed-height probe
point. -/
def isBlocked (colliderBoxes : List JSBox) (nextPos : JSVec3) : Bool :=
  colliderBoxes.any (fun b => containsPoint (expandByScalar b radius) (probeOf nextPos))

/-- The fixed shrink margin `0.05` from the collider-box build. -/
def shrinkAmount : ℚ := 1/20

/-- The horizontal shrink the build applies to its temporary box: min.x and
min.z grow by the margin, max.x and max.z drop by it (lines 276-280 of the
client). -/
def shrinkXZ (b : JSBox) : JSBox :=
  { min := { x := jsAdd b.min.x (.fin shrinkAmount), y := b.min.y,
             z := jsAdd b.min.z (.fin shrinkAmount) },
    max := { x := jsSub b.max.x (.fin shrinkAmount), y := b.max.y,
             z := jsSub b.max.z (.fin shrinkAmount) } }

/-- The collider-box build loop of `loadEnvironment`. Each proxy mesh is
abstracted as the world-space axis-aligned bounding box computed for it by the
scene library (`geometry.boundingBox` transformed by `matrixWorld` through
`Box3.applyMatrix4`, an external collaborator), or `none` when the mesh has no
geometry bounding box and is skipped. Mirroring the source faithfully: a mesh
whose box has finite `min.x` first has a clone of the box pushed into the
result, and only then is the temporary box shrunk -- the shrunk value is dead,
exactly as in the source, where `tempBox` is mutated after `tempBox.clone()`
was already pushed and is overwritten at the next iteration. -/
def buildColliderBoxes : List (Option JSBox) → List JSBox
  | [] => []
  | none :: rest => buildColliderBoxes rest
  | some tempBox :: rest =>
    if jsIsFinite tempBox.min.x then
      let _shrunkTempAfterPush := shrinkXZ tempBox
      tempBox :: buildColliderBoxes rest
    else
      buildColliderBoxes rest

/-- Modelled from the spec: the sphere formulation of the collision query,
"testing each unexpanded box against a sphere of that radius centered at the
probe point". The Euclidean squared distance from the center to the box is
compared against the squared radius; arguments are the box min corner, the box
max corner, the sphere center and the radius, all finite. -/
def axisGap (lo hi c : ℚ) : ℚ := max 0 (max (lo - c) (c - hi))

/-- Modelled from the spec: true iff the sphere of radius `r` centered at
`(c1, c2, c3)` meets the box `[lo1, hi1] × [lo2, hi2] × [lo3, hi3]`. -/
def specSphereTest (lo1 lo2 lo3 hi1 hi2 hi3 c1 c2 c3 r : ℚ) : Bool :=
  decide ((axisGap lo1 hi1 c1)^2 + (axisGap lo2 hi2 c2)^2 + (axisGap lo3 hi3 c3)^2 ≤ r^2)

/-! ## Replicated schema (`MyRoomState.ts`) -/

/-- A `PlayerState` schema entry. Defaults are the schema field initializers. -/
structure PlayerState where
  id : String := ""
  name : String := "Guest"
  avatarKey : String := "a1"
  x : JSNum := .fin 0
  y : JSNum := .fin 0
  z : JSNum := .fin 0
  ry : JSNum := .fin 0
deriving DecidableEq

/-- The replicated room state: the players `MapSchema` (modelled as an
association list keyed by session id) and the room-wide environment key,
defaulting to `"office"` as in the schema initializer. -/
structure MyRoomState where
  players : List (String × PlayerState) := []
  envKey : String := "office"
deriving DecidableEq

/-- `MapSchema.get`: first binding for the key, if any. -/
def aget {α : Type} : List (String × α) → String → Option α
  | [], _ => none
  | e :: rest, k => if e.1 = k then some e.2 else aget rest k

/-- `MapSchema.set`: replace the first binding for the key, or append. -/
def aset {α : Type} : List (String × α) → String → α → List (String × α)
  | [], k, v => [(k, v)]
  | e :: rest, k, v => if e.1 = k then (k, v) :: rest else e :: aset rest k v

/-- `MapSchema.delete`: drop every binding for the key. -/
def adel {α : Type} : List (String × α) → String → List (String × α)
  | [], _ => []
  | e :: rest, k => if e.1 = k then adel rest k else e :: adel rest k

/-! ## Room server (`MyRoom.ts`) -/

/-- A `move` message: each field is `some v` when present with a value of JS
type number (so `typeof msg.x === "number"` holds -- note NaN and the
infinities are of type number), `none` when missing or of another type. -/
structure MoveMsg where
  x : Option JSNum := none
  y : Option JSNum := none
  z : Option JSNum := none
  ry : Option JSNum := none
deriving DecidableEq

/-- The clamp `Math.max(-50, Math.min(50, v))` from the move handler. -/
def clamp50 (v : JSNum) : JSNum := jsMax (.fin (-50)) (jsMin (.fin 50) v)

/-- The `move` message handler: ignores messages from sessions with no
`PlayerState`; otherwise updates exactly the fields present and numeric,
clamping x, y, z and storing ry as sent. -/
def onMove (s : MyRoomState) (sid : String) (msg : MoveMsg) : MyRoomState :=
  match aget s.players sid with
  | none => s
  | some p =>
    let p := match msg.x with | some v => { p with x := clamp50 v } | none => p
    let p := match msg.y with | some v => { p with y := clamp50 v } | none => p
    let p := match msg.z with | some v => { p with z := clamp50 v } | none => p
    let p := match msg.ry with | some v => { p with ry := v } | none => p
    { s with players := aset s.players sid p }

/-- `JoinOptions`: the optional name, avatar key and requested environment. -/
structure JoinOptions where
  name : Option String := none
  avatarKey : Option String := none
  envKey : Option String := none
deriving DecidableEq

/-- JavaScript `String.prototype.slice(0, n)` (code units modelled as chars). -/
def jsSlice (s : String) (n : Nat) : String := ⟨s.data.take n⟩

/-- The exact rational value of the IEEE-754 double `Math.PI`. -/
def mathPI : ℚ := 884279719003555 / 281474976710656

/-- The fresh `PlayerState` built by `onJoin`: fixed spawn offset
(0, 1, -2) and facing `Math.PI`. -/
def joinPlayer (sid : String) (opts : JoinOptions) : PlayerState :=
  { id := sid,
    name := jsSlice (opts.name.getD "Guest") 32,
    avatarKey := opts.avatarKey.getD "a1",
    x := .fin 0,
    y := .fin 1,
    z := .fin (-2),
    ry := .fin mathPI }

/-- `onJoin`: if the room currently has zero members, the requested
environment (adopted only when it is exactly `"whitespace"`, `"office"`
otherwise) becomes the room's `envKey`; then the fresh player is inserted. -/
def onJoin (s : MyRoomState) (sid : String) (opts : JoinOptions) : MyRoomState :=
  let envKey' :=
    if s.players.isEmpty then
      if opts.envKey.getD "" = "whitespace" then "whitespace" else "office"
    else s.envKey
  { players := aset s.players sid (joinPlayer sid opts), envKey := envKey' }

/-- The grace argument of `allowReconnection(client, 5)`: five seconds. -/
def reconnectGraceSeconds : ℚ := 5

/-- `onLeave`: `allowReconnection(client, 5)` resolves when the same session
reconnects within the grace window (modelled as `some t` with the reconnect
delay `t`), in which case the state is untouched; when it rejects (no
reconnection at all, `none`, or one after the window) the `PlayerState` is
deleted. -/
def onLeave (s : MyRoomState) (sid : String) (reconnectAfter : Option ℚ) : MyRoomState :=
  match reconnectAfter with
  | some t =>
    if t ≤ reconnectGraceSeconds then s
    else { s with players := adel s.players sid }
  | none => { s with players := adel s.players sid }

/-- The broadcast payload of the `chat` handler. -/
structure ChatPayload where
  id : String
  name : String
  text : String
  ts : Int
deriving DecidableEq

/-- The whitespace characters removed by `String.prototype.trim` that occur in
the verified inputs (the full JS set also has further Unicode space chars). -/
def isJsWhitespace (c : Char) : Bool :=
  c = ' ' || c = '\t' || c = '\n' || c = '\r'

/-- JavaScript `String.prototype.trim`. -/
def jsTrim (s : String) : String :=
  ⟨((s.data.dropWhile isJsWhitespace).reverse.dropWhile isJsWhitespace).reverse⟩

/-- The `chat` message handler: returns the broadcast payload, or `none` when
the message is dropped. `now` is the value of `Date.now()` at handling time. -/
def onChat (s : MyRoomState) (sid : String) (msgText : Option String) (now : Int) :
    Option ChatPayload :=
  let text := jsTrim (msgText.getD "")
  if text = "" then none
  else
    let name := match aget s.players sid with
      | some p => p.name
      | none => "Guest"
    some { id := sid, name := name, text := jsSlice text 500, ts := now }

/-! ## Room lifecycle as an event system -/

/-- The state-relevant events a room processes, in arrival order. A `leave`
carries the reconnect delay of the departing session (`none` when it never
reconnects); `chat` and `emote` handlers only broadcast and never touch the
replicated state. -/
inductive RoomEvent where
  | join (sid : String) (opts : JoinOptions)
  | move (sid : String) (msg : MoveMsg)
  | leave (sid : String) (reconnectAfter : Option ℚ)
  | chat (sid : String) (text : Option String)
  | emote (sid : String) (emoteText : Option String)
deriving DecidableEq

/-- One step of the room's single-threaded message processing. -/
def applyEvent (s : MyRoomState) : RoomEvent → MyRoomState
  | .join sid opts => onJoin s sid opts
  | .move sid msg => onMove s sid msg
  | .leave sid r => onLeave s sid r
  | .chat _ _ => s
  | .emote _ _ => s

/-- Run a room from creation (`setState(new MyRoomState())`) through a list of
events. -/
def runRoom (events : List RoomEvent) : MyRoomState :=
  events.foldl applyEvent {}

/-! ## Animation state machine (per-entity rig) -/

/-- The looping base animation states. -/
inductive BaseAnim where
  | idle
  | walk
deriving DecidableEq

/-- The animation-relevant fields of a `PlayerRig`: the current base state and
whether the one-shot wave override is active. -/
structure PlayerRig where
  current : BaseAnim
  emoteActive : Bool
deriving DecidableEq

/-- `setBaseAnim`: cross-fades to the requested base state, unless the wave
override is active or the rig is already in that state. -/
def setBaseAnim (rig : PlayerRig) (next : BaseAnim) : PlayerRig :=
  if rig.emoteActive then rig
  else if rig.current = next then rig
  else { rig with current := next }

/-- `playWave`: no-op when the override is already active; otherwise marks the
override active (the one-shot wave clip is faded in, the base actions faded
out; `rig.current` itself is not touched by the trigger). -/
def playWave (rig : PlayerRig) : PlayerRig :=
  if rig.emoteActive then rig
  else { rig with emoteActive := true }

/-- The `finished` handler registered by `playWave`: when the wave clip
completes, the override is cleared and the rig returns to `idle`. -/
def onWaveFinished (rig : PlayerRig) : PlayerRig :=
  { rig with emoteActive := false, current := .idle }

/-!
## Theorems

The rational operations are sealed in the library; concrete evaluation of the
embedded handlers needs them to reduce.
-/

unseal Rat.mul Rat.inv Rat.add Rat.sub

set_option maxRecDepth 8192

/-- Looking up the key just set. -/
theorem aget_aset_self {α : Type} (l : List (String × α)) (k : String) (v : α) :
    aget (aset l k v) k = some v := by
  induction l with
  | nil => simp [aset, aget]
  | cons e rest ih =>
    by_cases hk : e.1 = k
    · simp [aset, hk, aget]
    · simp [aset, hk, aget, ih]

/-- Looking up the key just deleted. -/
theorem aget_adel_self {α : Type} (l : List (String × α)) (k : String) :
    aget (adel l k) k = none := by
  induction l with
  | nil => rfl
  | cons e rest ih =>
    by_cases hk : e.1 = k
    · simp [adel, hk, ih]
    · simp [adel, aget, hk, ih]

/-- On a finite value the move-handler clamp is the usual clamp to [-50, 50]. -/
theorem clamp50_fin (q : ℚ) : clamp50 (.fin q) = .fin (max (-50) (min 50 q)) := by
  by_cases h1 : (50:ℚ) ≤ q
  · have : max (-50:ℚ) 50 = 50 := by norm_num
    simp [clamp50, jsMin, jsMax, jsLe, h1, min_eq_left h1, this]
  · have hq : q ≤ 50 := le_of_not_le h1
    by_cases h2 : (-50:ℚ) ≤ q
    · simp [clamp50, jsMin, jsMax, jsLe, h1, h2, min_eq_right hq, max_eq_right h2]
    · have hle : q ≤ -50 := le_of_not_le h2
      simp [clamp50, jsMin, jsMax, jsLe, h1, h2, min_eq_right hq, max_eq_left hle]

/-- C1, counterexample: NaN has JS type number, so it passes the
`typeof msg.x === "number"` guard, and `Math.max(-50, Math.min(50, NaN))` is
NaN. A freshly joined player has stored x = 0; a move message with x = NaN
overwrites that prior value with NaN -- a present non-finite field does NOT
leave the prior stored value unchanged. -/
theorem c1_counterexample :
    (aget (onJoin {} "A" {}).players "A").map PlayerState.x = some (.fin 0) ∧
    jsIsFinite .nan = false ∧
    (aget (onMove (onJoin {} "A" {}) "A" { x := some .nan }).players "A").map PlayerState.x
      = some .nan :=
  ⟨by decide, rfl, by decide⟩

/-- C1 (amended): for a connected session, a move message updates exactly the
fields present and numeric: x, y, z are stored as
`Math.max(-50, Math.min(50, v))` -- which for finite v is the clamp to
[-50, 50] -- and ry is stored exactly as sent; missing or non-number fields
leave the prior stored value unchanged. (Non-finite numeric fields do update:
NaN is stored as NaN and the infinities clamp to the interval ends.) -/
theorem c1_move_update (s : MyRoomState) (sid : String) (msg : MoveMsg) (p : PlayerState)
    (h : aget s.players sid = some p) :
    aget (onMove s sid msg).players sid = some
      { p with
        x := match msg.x with | some v => clamp50 v | none => p.x,
        y := match msg.y with | some v => clamp50 v | none => p.y,
        z := match msg.z with | some v => clamp50 v | none => p.z,
        ry := match msg.ry with | some v => v | none => p.ry } ∧
    ∀ q : ℚ, clamp50 (.fin q) = .fin (max (-50) (min 50 q)) ∧
      -50 ≤ max (-50) (min 50 q) ∧ max (-50) (min 50 q) ≤ 50 := by
  constructor
  · rcases msg with ⟨mx, my, mz, mry⟩
    cases mx <;> cases my <;> cases mz <;> cases mry <;>
      simp [onMove, h, aget_aset_self]
  · intro q
    exact ⟨clamp50_fin q, le_max_left _ _, max_le (by norm_num) (min_le_left _ _)⟩

/-- C1 witness: a fresh player, then a move with x = 100 and ry = 7; x is
stored clamped, ry as sent. -/
theorem c1_move_update_witness :
    aget (onJoin {} "A" {}).players "A" = some (joinPlayer "A" {}) ∧
    (aget (onMove (onJoin {} "A" {}) "A"
          { x := some (.fin 100), ry := some (.fin 7) }).players "A"
        = some { joinPlayer "A" {} with x := clamp50 (.fin 100), ry := .fin 7 } ∧
      ∀ q : ℚ, clamp50 (.fin q) = .fin (max (-50) (min 50 q)) ∧
        -50 ≤ max (-50) (min 50 q) ∧ max (-50) (min 50 q) ≤ 50) :=
  ⟨by decide,
    c1_move_update (onJoin {} "A" {}) "A" { x := some (.fin 100), ry := some (.fin 7) }
      (joinPlayer "A" {}) (by decide)⟩

/-- C2, counterexample: A joins the empty room requesting whitespace, so
envKey becomes whitespace; A leaves and never reconnects, emptying the players
map (the room is not auto-disposed); B then joins the empty room requesting
office, and envKey changes to office. envKey is therefore not immutable for
the room's lifetime. -/
theorem c2_counterexample :
    (runRoom [.join "A" { envKey := some "whitespace" }]).envKey = "whitespace" ∧
    (runRoom [.join "A" { envKey := some "whitespace" }, .leave "A" none,
        .join "B" { envKey := some "office" }]).envKey = "office" :=
  ⟨by decide, by decide⟩

/-- C2 (amended): envKey is assigned by whichever join arrives while the
players map is empty -- which can recur after all players leave, since the
room is not auto-disposed -- and never changes while the room has at least one
member: no event processed in a state with a nonempty players map alters
envKey. -/
theorem c2_envKey_stable (s : MyRoomState) (e : RoomEvent) (h : s.players ≠ []) :
    (applyEvent s e).envKey = s.envKey := by
  cases e with
  | join sid opts =>
    have hne : s.players.isEmpty = false := by
      cases hp : s.players with
      | nil => exact absurd hp h
      | cons a l => rfl
    simp [applyEvent, onJoin, hne]
  | move sid msg =>
    simp only [applyEvent, onMove]
    rcases hg : aget s.players sid with _ | p <;> simp [hg]
  | leave sid r =>
    simp only [applyEvent, onLeave]
    rcases r with _ | t
    · rfl
    · by_cases ht : t ≤ reconnectGraceSeconds <;> simp [ht]
  | chat sid txt => rfl
  | emote sid txt => rfl

/-- C2 witness: with one player present, a join requesting a different
environment leaves envKey unchanged. -/
theorem c2_envKey_stable_witness :
    (runRoom [.join "A" { envKey := some "whitespace" }]).players ≠ [] ∧
    (applyEvent (runRoom [.join "A" { envKey := some "whitespace" }])
        (.join "B" { envKey := some "office" })).envKey
      = (runRoom [.join "A" { envKey := some "whitespace" }]).envKey :=
  ⟨by decide, c2_envKey_stable _ _ (by decide)⟩

/-- C3 (amended): isBlocked is true iff the fixed-height probe point derived
from the query lies in some collision box expanded by the entity radius on
each axis, and the query's own y coordinate is irrelevant. (The expansion test
is an axis-wise, Chebyshev-distance test; it is NOT equivalent to testing each
unexpanded box against a Euclidean sphere at the probe -- see the
counterexample.) -/
theorem c3_isBlocked_character (boxes : List JSBox) (p : JSVec3) :
    (isBlocked boxes p = true ↔
      ∃ b ∈ boxes, containsPoint (expandByScalar b radius) (probeOf p) = true) ∧
    ∀ y', isBlocked boxes { p with y := y' } = isBlocked boxes p := by
  constructor
  · simp [isBlocked, List.any_eq_true]
  · intro y'
    rfl

/-- C3, counterexample to the sphere equivalence: for the box
[0,1] x [0,2] x [0,1] and query (1.4, 0.5, 1.4), the probe is (1.4, 1.5, 1.4);
the box expanded by 0.45 contains the probe (per-axis overhang 0.4 <= 0.45),
so isBlocked is true, but the Euclidean distance from the probe to the box is
sqrt(0.32) > 0.45, so the sphere of radius 0.45 at the probe misses the box. -/
theorem c3_counterexample :
    isBlocked [⟨⟨.fin 0, .fin 0, .fin 0⟩, ⟨.fin 1, .fin 2, .fin 1⟩⟩]
        ⟨.fin (7/5), .fin (1/2), .fin (7/5)⟩ = true ∧
    probeOf ⟨.fin (7/5), .fin (1/2), .fin (7/5)⟩ = ⟨.fin (7/5), .fin (3/2), .fin (7/5)⟩ ∧
    specSphereTest 0 0 0 1 2 1 (7/5) (3/2) (7/5) (9/20) = false :=
  ⟨by decide, by decide, by decide⟩

/-- C4: the build pushes `tempBox.clone()` BEFORE shrinking, and the shrink
mutates only the temporary, which the next iteration overwrites -- dead code.
A mesh with world AABB [0,1]^3 is stored exactly as [0,1]^3, although the
intended shrink would have changed it. -/
theorem c4_box_stored_unshrunk :
    buildColliderBoxes [some ⟨⟨.fin 0, .fin 0, .fin 0⟩, ⟨.fin 1, .fin 1, .fin 1⟩⟩]
      = [⟨⟨.fin 0, .fin 0, .fin 0⟩, ⟨.fin 1, .fin 1, .fin 1⟩⟩] ∧
    shrinkXZ ⟨⟨.fin 0, .fin 0, .fin 0⟩, ⟨.fin 1, .fin 1, .fin 1⟩⟩
      ≠ ⟨⟨.fin 0, .fin 0, .fin 0⟩, ⟨.fin 1, .fin 1, .fin 1⟩⟩ :=
  ⟨by decide, by decide⟩

/-- C5, counterexample: the build checks `Number.isFinite` only on min.x; a
mesh whose world AABB has finite min.x but NaN max.x is stored, so a stored
box can have non-finite extents and the non-finite box is not discarded. -/
theorem c5_counterexample :
    buildColliderBoxes [some ⟨⟨.fin 0, .fin 0, .fin 0⟩, ⟨.nan, .fin 1, .fin 1⟩⟩]
      = [⟨⟨.fin 0, .fin 0, .fin 0⟩, ⟨.nan, .fin 1, .fin 1⟩⟩] ∧
    jsIsFinite JSNum.nan = false :=
  ⟨by decide, rfl⟩

/-- C5 (amended): every box stored by the build has finite min.x and is one of
the input meshes' world AABBs; a box is discarded exactly when its min.x is
non-finite -- nothing is guaranteed about the other five extent components,
nor that min is strictly below max on any axis. -/
theorem c5_stored_box_finite_minx (ms : List (Option JSBox)) (b : JSBox)
    (h : b ∈ buildColliderBoxes ms) :
    jsIsFinite b.min.x = true ∧ some b ∈ ms := by
  induction ms with
  | nil => cases h
  | cons wb rest ih =>
    cases wb with
    | none =>
      have h' : b ∈ buildColliderBoxes rest := by
        simpa [buildColliderBoxes] using h
      exact ⟨(ih h').1, List.mem_cons_of_mem _ (ih h').2⟩
    | some tb =>
      by_cases hf : jsIsFinite tb.min.x = true
      · have hb : b = tb ∨ b ∈ buildColliderBoxes rest := by
          simpa [buildColliderBoxes, hf] using h
        rcases hb with rfl | hb
        · exact ⟨hf, List.mem_cons_self _ _⟩
        · exact ⟨(ih hb).1, List.mem_cons_of_mem _ (ih hb).2⟩
      · have hb : b ∈ buildColliderBoxes rest := by
          simpa [buildColliderBoxes, hf] using h
        exact ⟨(ih hb).1, List.mem_cons_of_mem _ (ih hb).2⟩

/-- The all-finite unit box used to witness the amended C5 statement. -/
def c5okBox : JSBox := ⟨⟨.fin 0, .fin 0, .fin 0⟩, ⟨.fin 1, .fin 1, .fin 1⟩⟩

/-- C5 witness: the finite unit box is stored by a build from it, and the
amended statement holds there. -/
theorem c5_stored_box_finite_minx_witness :
    c5okBox ∈ buildColliderBoxes [some c5okBox] ∧
    (jsIsFinite c5okBox.min.x = true ∧ some c5okBox ∈ [some c5okBox]) :=
  ⟨by decide, c5_stored_box_finite_minx [some c5okBox] c5okBox (by decide)⟩

/-- C6: a session reconnecting within the 5-second grace window leaves the
whole room state -- in particular its PlayerState entry -- unchanged; with no
reconnection inside the window (a late reconnect, or none at all) the
PlayerState is deleted from the players map; and any later join inserts a
fresh PlayerState at the default spawn offset (0, 1, -2) facing Math.PI. -/
theorem c6_reconnect_window (s s2 : MyRoomState) (sid sid2 : String) (t u : ℚ)
    (opts : JoinOptions) :
    (t ≤ 5 → onLeave s sid (some t) = s) ∧
    (5 < u → aget (onLeave s sid (some u)).players sid = none) ∧
    aget (onLeave s sid none).players sid = none ∧
    aget (onJoin s2 sid2 opts).players sid2 = some (joinPlayer sid2 opts) ∧
    (joinPlayer sid2 opts).x = .fin 0 ∧ (joinPlayer sid2 opts).y = .fin 1 ∧
    (joinPlayer sid2 opts).z = .fin (-2) ∧ (joinPlayer sid2 opts).ry = .fin mathPI := by
  refine ⟨?_, ?_, ?_, ?_, rfl, rfl, rfl, rfl⟩
  · intro ht
    simp [onLeave, reconnectGraceSeconds, ht]
  · intro hu
    simp [onLeave, reconnectGraceSeconds, not_le.mpr hu, aget_adel_self]
  · simp [onLeave, aget_adel_self]
  · simp [onJoin, aget_aset_self]

/-- C6 witness: a room with player C; a reconnect after 3 seconds keeps the
state, one after 7 seconds (or never) deletes C, and a later join of D is a
fresh default-spawn PlayerState. -/
theorem c6_reconnect_window_witness :
    ((3:ℚ) ≤ 5 ∧ (5:ℚ) < 7) ∧
    onLeave (runRoom [.join "C" {}]) "C" (some 3) = runRoom [.join "C" {}] ∧
    aget (onLeave (runRoom [.join "C" {}]) "C" (some 7)).players "C" = none ∧
    aget (onLeave (runRoom [.join "C" {}]) "C" none).players "C" = none ∧
    aget (onJoin (runRoom [.join "C" {}]) "D" {}).players "D" = some (joinPlayer "D" {}) := by
  have h := c6_reconnect_window (runRoom [.join "C" {}]) (runRoom [.join "C" {}]) "C" "D" 3 7 {}
  exact ⟨⟨by norm_num, by norm_num⟩, h.1 (by norm_num), h.2.1 (by norm_num),
    h.2.2.1, h.2.2.2.1⟩

/-- C7: a chat message whose trimmed text is empty is dropped (nothing is
broadcast); otherwise the payload carries the sender's session id, the
sender's name (or Guest), the trimmed text truncated to at most 500
characters, and the timestamp; the broadcast text length is exactly
min(500, trimmed length). -/
theorem c7_chat (s s' : MyRoomState) (sid sid' : String) (mt mt' : Option String)
    (now now' : Int) :
    (jsTrim (mt.getD "") = "" → onChat s sid mt now = none) ∧
    (jsTrim (mt'.getD "") ≠ "" →
      onChat s' sid' mt' now' = some
        { id := sid',
          name := match aget s'.players sid' with | some p => p.name | none => "Guest",
          text := jsSlice (jsTrim (mt'.getD "")) 500,
          ts := now' } ∧
      (jsSlice (jsTrim (mt'.getD "")) 500).length = min 500 (jsTrim (mt'.getD "")).length) := by
  constructor
  · intro h
    simp [onChat, h]
  · intro h
    refine ⟨by simp [onChat, h], ?_⟩
    show ((jsTrim (mt'.getD "")).data.take 500).length
      = min 500 (jsTrim (mt'.getD "")).data.length
    exact List.length_take _ _

/-- A 600-character chat message. -/
def longMsg : String := ⟨List.replicate 600 'a'⟩

/-- C7 witness: whitespace-only text is dropped; a 600-character message is
broadcast with its text truncated to exactly 500 characters. -/
theorem c7_chat_witness :
    jsTrim ((some "   ").getD "") = "" ∧
    jsTrim ((some longMsg).getD "") ≠ "" ∧
    onChat {} "A" (some "   ") 0 = none ∧
    (onChat {} "B" (some longMsg) 5 = some
        { id := "B", name := "Guest", text := jsSlice (jsTrim longMsg) 500, ts := 5 } ∧
      (jsSlice (jsTrim longMsg) 500).length = min 500 (jsTrim longMsg).length) ∧
    longMsg.length = 600 ∧
    (jsSlice (jsTrim longMsg) 500).length = 500 := by
  have h := c7_chat {} {} "A" "B" (some "   ") (some longMsg) 0 5
  exact ⟨by decide, by decide, h.1 (by decide), h.2 (by decide), by decide, by decide⟩

/-- C8: triggering the wave emote while it is not already active activates the
one-shot override (without touching the stored base state), and the clip
completion handler returns the rig to idle with the override cleared; a second
trigger while the override is active is a no-op; and while it is active, base
idle/walk transitions are suppressed. -/
theorem c8_wave_machine (r r2 r3 : PlayerRig) (next : BaseAnim) :
    (r.emoteActive = false →
      (playWave r).emoteActive = true ∧
      (playWave r).current = r.current ∧
      onWaveFinished (playWave r) = { current := .idle, emoteActive := false }) ∧
    (r2.emoteActive = true → playWave r2 = r2) ∧
    (r3.emoteActive = true → setBaseAnim r3 next = r3) := by
  refine ⟨?_, ?_, ?_⟩
  · intro h
    simp [playWave, onWaveFinished, h]
  · intro h
    simp [playWave, h]
  · intro h
    simp [setBaseAnim, h]

/-- C8 witness: from an idle rig, wave activates and completion returns to
idle; a second trigger and base transitions are no-ops while active. -/
theorem c8_wave_machine_witness :
    ((playWave ⟨.idle, false⟩).emoteActive = true ∧
      (playWave ⟨.idle, false⟩).current = .idle ∧
      onWaveFinished (playWave ⟨.idle, false⟩) = ⟨.idle, false⟩) ∧
    playWave ⟨.walk, true⟩ = ⟨.walk, true⟩ ∧
    setBaseAnim ⟨.idle, true⟩ .walk = ⟨.idle, true⟩ := by
  have h := c8_wave_machine ⟨.idle, false⟩ ⟨.walk, true⟩ ⟨.idle, true⟩ .walk
  exact ⟨h.1 rfl, h.2.1 rfl, h.2.2 rfl⟩

/-- C9: client A joins the empty room requesting whitespace, so envKey becomes
whitespace and the room is now non-empty; client B then joins requesting
office, and envKey remains whitespace. -/
theorem c9_env_scenario :
    (runRoom [.join "A" { envKey := some "whitespace" }]).envKey = "whitespace" ∧
    (runRoom [.join "A" { envKey := some "whitespace" }]).players ≠ [] ∧
    (runRoom [.join "A" { envKey := some "whitespace" },
        .join "B" { envKey := some "office" }]).envKey = "whitespace" :=
  ⟨by decide, by decide, by decide⟩

/-- C10: a move message whose session id has no PlayerState leaves the entire
room state (players map and envKey) unchanged; the handler returns without
raising. -/
theorem c10_move_unknown_session (s : MyRoomState) (sid : String) (msg : MoveMsg)
    (h : aget s.players sid = none) : onMove s sid msg = s := by
  simp [onMove, h]

/-- C10 witness: a move for an unknown session in the fresh room is a no-op. -/
theorem c10_move_unknown_session_witness :
    aget ({} : MyRoomState).players "Z" = none ∧
    onMove {} "Z" { x := some (.fin 3) } = ({} : MyRoomState) :=
  ⟨rfl, c10_move_unknown_session {} "Z" { x := some (.fin 3) } rfl⟩

end GreenGalaxy
